import Mathlib

/-!
Shallow embedding of the ctdb cluster-address plugins of the freenas
middleware (`ctdb_private.py`, `ctdb_public.py`, `ctdb_shared_volume.py`).

Python strings are `String`, Python ints are `Int`, Python lists are
`List`.  Fallible code returns `Except PyErr`.  Filesystem and service
state visible to these plugins is collected in explicit state records;
each middleware method becomes a function from state to `Except` of a
result paired with the successor state.

The file-path constants come from `CTDBConfig` in `utils.py` (not part of
the sources here); only their identity matters, so they are opaque string
tokens.
-/

namespace Ctdb

/-- Exceptions raised by the Python code. `validation` models a raised
    `ValidationErrors` aggregate (from `verrors.check()`). -/
inductive VError
  | glusterdNotStarted
  | notMounted
  | ipInUseOnNode (ip : String)
  | badNetmask (n : Int)
  | badInterface (name : String)
  | conflict (ip : String)
  | notFound (ip : String)
deriving DecidableEq, Repr

inductive PyErr
  | validation (errs : List VError)
  | typeError
  | indexError
  | valueError
  | stopIteration
  | callError (msg : String)
deriving DecidableEq, Repr

instance {ε α : Type} [DecidableEq ε] [DecidableEq α] :
    DecidableEq (Except ε α) := fun a b =>
  match a, b with
  | .ok x, .ok y =>
    if h : x = y then .isTrue (by rw [h]) else .isFalse (by simp [h])
  | .error x, .error y =>
    if h : x = y then .isTrue (by rw [h]) else .isFalse (by simp [h])
  | .ok _, .error _ => .isFalse (by simp)
  | .error _, .ok _ => .isFalse (by simp)

/-- `CTDBConfig.GM_PRI_IP_FILE.value` — the canonical private-ip file on
    the shared volume (opaque path token). -/
def PRI_IP_FILE : String := "GM_PRI_IP_FILE"

/-- `CTDBConfig.GM_PUB_IP_FILE.value` — the canonical public-ip file on
    the shared volume (opaque path token). -/
def PUB_IP_FILE : String := "GM_PUB_IP_FILE"

/-- State of a local `/etc` indirection path (`ETC_PRI_IP_FILE` /
    `ETC_PUB_IP_FILE`).  For a symlink, `targetExists` records whether the
    link's target exists as a file other than the canonical file that
    `update_file` itself touches (the canonical file always exists after
    the touch, so existence of a symlink pointing at it is handled
    separately in `etcExists`). -/
inductive EtcState
  | absent
  | regularFile
  | directory
  | symlinkTo (target : String) (targetExists : Bool)
deriving DecidableEq, Repr

/-- `Path.exists()` follows symlinks; evaluated after the canonical file
    `canonical` has been touched, so a link to `canonical` exists. -/
def etcExists (canonical : String) : EtcState → Bool
  | .absent => false
  | .regularFile => true
  | .directory => true
  | .symlinkTo t te => te || t == canonical

def EtcState.isSym : EtcState → Bool
  | .symlinkTo _ _ => true
  | _ => false

/-- `Path.resolve()` of the etc path; only consulted when it is a symlink. -/
def resolveTarget : EtcState → String
  | .symlinkTo t _ => t
  | _ => ""

/-- `etc_file.is_symlink() and etc_file.resolve() == <canonical>` —
    the symlink-validity test used by both `query` methods. -/
def isLinkTo (e : EtcState) (canonical : String) : Bool :=
  e.isSym && resolveTarget e == canonical

/-- Python `c in hay` for a list of characters: `needle` occurs as a
    contiguous run inside `hay`. -/
def charsStartWith : List Char → List Char → Bool
  | [], _ => true
  | _ :: _, [] => false
  | a :: as, b :: bs => a == b && charsStartWith as bs

def charsHasSub (needle : List Char) : List Char → Bool
  | [] => needle.isEmpty
  | b :: bs => charsStartWith needle (b :: bs) || charsHasSub needle bs

/-- Python `needle in hay` on strings (substring containment). -/
def strContains (hay needle : String) : Bool :=
  charsHasSub needle.toList hay.toList

/-- Split a character list at every separator character (identified by
    `p`), keeping empty pieces — the semantics of Python's
    `s.split(sep)`. -/
def splitPredAux (p : Char → Bool) : List Char → List Char → List (List Char)
  | [], acc => [acc.reverse]
  | c :: cs, acc =>
    if p c then acc.reverse :: splitPredAux p cs []
    else splitPredAux p cs (c :: acc)

/-- Python `s.split(sep)` for a one-character separator. -/
def pySplitOn (sep : Char) (s : String) : List String :=
  (splitPredAux (· == sep) s.toList []).map fun l => String.mk l

/-- Python `s.split()` — split on whitespace runs, dropping empties. -/
def pySplitWs (s : String) : List String :=
  ((splitPredAux (fun c => c == ' ' || c == '\t' || c == '\n') s.toList []).map
    fun l => String.mk l).filter (· ≠ "")

def digitsToNatAux : List Char → Nat → Option Nat
  | [], acc => some acc
  | c :: cs, acc =>
    let n := c.toNat
    if 48 ≤ n && n ≤ 57 then digitsToNatAux cs (acc * 10 + (n - 48)) else none

/-- Python `int(s)` on the decimal forms that occur in store lines
    (optionally `-`-signed digit runs); `none` models `ValueError`. -/
def pyInt (s : String) : Option Int :=
  match s.toList with
  | [] => none
  | '-' :: rest =>
    if rest.isEmpty then none
    else (digitsToNatAux rest 0).map fun n => -(n : Int)
  | l => (digitsToNatAux l 0).map fun n => (n : Int)

/-- An entry of `ctdb.public.ips.query` — a Python dict with keys
    `id`, `public_ip`, `netmask`, `interfaces`.  `interfaces` is a list of
    strings (in the file-reading branch the code builds it with
    `list(i.split()[-1])`, which yields the characters of the interface
    name as one-character strings). -/
structure PubEntry where
  id : String
  public_ip : String
  netmask : Int
  interfaces : List String
deriving DecidableEq, Repr

/-- Argument dict of `ctdb.public.ips.do_create`. -/
structure PubData where
  ip : String
  netmask : Int
  interface : String
deriving DecidableEq, Repr

/-- The state visible to the private/public ip plugins: service run
    states, the mount state of the shared volume, the two canonical store
    files (existence flag plus line list), the two `/etc` indirection
    paths, the live daemon's views, and the local node's interface
    inventory. -/
structure ClusterState where
  ctdbStarted : Bool
  glusterdStarted : Bool
  mounted : Bool
  healthy : Bool
  priFileExists : Bool
  priLines : List String
  priEtc : EtcState
  pubFileExists : Bool
  pubLines : List String
  pubEtc : EtcState
  daemonNodes : List String
  daemonPubIps : List PubEntry
  nodeIps : List String
  nodeInts : List String
deriving DecidableEq, Repr

/-- `ctdb.private.ips.query`: daemon node addresses when the daemon runs,
    else the raw lines of the canonical file when the shared volume is
    mounted, the file exists and the etc path is a symlink resolving to
    it; else `[]`. -/
def privateQuery (s : ClusterState) : List String :=
  if s.ctdbStarted then s.daemonNodes
  else if s.mounted && s.priFileExists && isLinkTo s.priEtc PRI_IP_FILE then s.priLines
  else []

/-- Parse one public store line the way the file-reading branch of
    `ctdb.public.ips.query` does: `i.split('/')[0]`,
    `int(i.split('/')[1].split()[0])`, `list(i.split()[-1])`. -/
def parsePubLine (i : String) : Except PyErr PubEntry :=
  let slash := pySplitOn '/' i
  let ipPart := slash.headD ""
  match slash.get? 1 with
  | none => .error .indexError
  | some second =>
    match (pySplitWs second).get? 0 with
    | none => .error .indexError
    | some nmStr =>
      match pyInt nmStr with
      | none => .error .valueError
      | some nm =>
        match (pySplitWs i).getLast? with
        | none => .error .indexError
        | some lastTok =>
          .ok { id := ipPart, public_ip := ipPart, netmask := nm,
                interfaces := lastTok.toList.map (fun c => String.mk [c]) }

/-- `ctdb.public.ips.query` (without the trailing `filter_list`, i.e. with
    empty filters): daemon public ips (with `id` set to `public_ip`) when
    the daemon runs, else the parsed lines of the canonical file under the
    same mount/symlink conditions as the private query; else `[]`. -/
def publicQuery (s : ClusterState) : Except PyErr (List PubEntry) :=
  if s.ctdbStarted then
    .ok (s.daemonPubIps.map fun i => { i with id := i.public_ip })
  else if s.mounted && s.pubFileExists && isLinkTo s.pubEtc PUB_IP_FILE then
    s.pubLines.mapM parsePubLine
  else .ok []

/-- An element of the mixed `cur_ips` list that the private
    `common_validation` builds: private query items are Python strings,
    public query items are Python dicts. -/
inductive PyItem
  | pstr (s : String)
  | pdict (e : PubEntry)
deriving DecidableEq, Repr

/-- Python `ip in cur_ips`: `==` between a `str` and a `dict` is `False`,
    so only string items can match. -/
def PyItem.eqStr : PyItem → String → Bool
  | .pstr s, t => s == t
  | .pdict _, _ => false

/-- `ctdb.private.ips.common_validation`: glusterd / mount checks, then a
    membership test of `pri_ip` in the concatenation of the private query
    result (strings) and the public query result (dicts). -/
def privateCommonValidation (s : ClusterState) (pri_ip : String) (del : Bool) :
    Except PyErr Unit :=
  let e1 := (if !s.glusterdStarted then [VError.glusterdNotStarted] else [])
    ++ (if !s.mounted then [VError.notMounted] else [])
  if e1 ≠ [] then .error (.validation e1)
  else
    match publicQuery s with
    | .error e => .error e
    | .ok pub =>
      let cur := (privateQuery s).map PyItem.pstr ++ pub.map PyItem.pdict
      let present := cur.any (PyItem.eqStr · pri_ip)
      let e2 :=
        if !del then (if present then [VError.conflict pri_ip] else [])
        else (if present then [] else [VError.notFound pri_ip])
      if e2 ≠ [] then .error (.validation e2) else .ok ()

/-- The list comprehension `[i['id'] for i in <private query result>]` in
    the public `common_validation`: the private query returns plain
    strings, and subscripting a Python `str` with `'id'` raises
    `TypeError`, so the comprehension fails on the first element. -/
def strIdSubscript : List String → Except PyErr (List String)
  | [] => .ok []
  | _ :: _ => .error .typeError

/-- `ctdb.public.ips.common_validation`. -/
def publicCommonValidation (s : ClusterState) (data : PubData) (del : Bool) :
    Except PyErr Unit :=
  let e1 := (if !s.glusterdStarted then [VError.glusterdNotStarted] else [])
    ++ (if !s.mounted then [VError.notMounted] else [])
    ++ (if s.nodeIps.contains data.ip then [VError.ipInUseOnNode data.ip] else [])
  if e1 ≠ [] then .error (.validation e1)
  else
    match strIdSubscript (privateQuery s) with
    | .error e => .error e
    | .ok curPri =>
      match publicQuery s with
      | .error e => .error e
      | .ok pub =>
        let cur := curPri ++ pub.map PubEntry.id
        let e2 :=
          if !del then
            let bad :=
              if strContains data.ip ":" && data.netmask > 128 then true
              else if data.netmask > 32 then true
              else if data.netmask < 0 then true
              else false
            (if bad then [VError.badNetmask data.netmask] else [])
            ++ (if !s.nodeInts.contains data.interface then
                  [VError.badInterface data.interface] else [])
            ++ (if cur.contains data.ip then [VError.conflict data.ip] else [])
          else
            (if !cur.contains data.ip then [VError.notFound data.ip] else [])
        if e2 ≠ [] then .error (.validation e2) else .ok ()

/-- The symlink-repair block shared by both `update_file` methods, run
    after the canonical file has been touched.  `delete_it` is set when the
    etc path exists and is not a symlink to `canonical`; `symlink_it` only
    when the path does not exist — the two flags are never both set.
    `.error` models a caught filesystem exception: `unlink` on a directory
    raises, and `symlink_to` raises when the path is still occupied (a
    dangling symlink exists for `symlink_to` but not for `exists()`). -/
def ensureSymlink (canonical : String) (etc : EtcState) : Except Unit EtcState :=
  if etcExists canonical etc then
    if !etc.isSym then
      if etc = .directory then .error () else .ok .absent
    else if resolveTarget etc ≠ canonical then .ok .absent
    else .ok etc
  else
    if etc = .absent then .ok (.symlinkTo canonical true) else .error ()

/-- `lines.index(pri_ip)` followed by the in-place `'#' + pri_ip`
    replacement: tombstone the first line equal to `ip`, keeping every
    other line in place; `none` models the `ValueError` from `index`. -/
def tombstone (ip : String) : List String → Option (List String)
  | [] => none
  | l :: ls =>
    if l = ip then some (("#" ++ ip) :: ls)
    else (tombstone ip ls).map (l :: ·)

/-- `lines.remove(next(i for i in lines if ip in i))`: drop the first line
    containing `ip` as a substring; `none` models the `StopIteration` from
    `next`. -/
def removeFirstContaining (ip : String) : List String → Option (List String)
  | [] => none
  | l :: ls =>
    if strContains l ip then some ls
    else (removeFirstContaining ip ls).map (l :: ·)

/-- `ctdb.private.ips.update_file`.  Returns the method's boolean result
    together with the successor state; `.error` models an uncaught
    exception.  The health gate runs only when the canonical file already
    exists and the daemon is started. -/
def privateUpdateFile (s : ClusterState) (pri_ip : String) (del : Bool) :
    Except PyErr (Bool × ClusterState) :=
  if s.priFileExists && s.ctdbStarted && !s.healthy then .ok (false, s)
  else
    let s1 := { s with priFileExists := true,
                       priLines := if s.priFileExists then s.priLines else [] }
    match ensureSymlink PRI_IP_FILE s1.priEtc with
    | .error _ => .ok (false, s1)
    | .ok etc1 =>
      let s2 := { s1 with priEtc := etc1 }
      if !del then .ok (true, { s2 with priLines := s2.priLines ++ [pri_ip] })
      else
        match tombstone pri_ip s2.priLines with
        | none => .error .valueError
        | some ls => .ok (true, { s2 with priLines := ls })

/-- `ctdb.public.ips.update_file`.  Same shape as the private variant but
    with no health gate; filesystem failures raise `CallError` instead of
    returning `False`. -/
def publicUpdateFile (s : ClusterState) (data : PubData) (del : Bool) :
    Except PyErr ClusterState :=
  let s1 := { s with pubFileExists := true,
                     pubLines := if s.pubFileExists then s.pubLines else [] }
  match ensureSymlink PUB_IP_FILE s1.pubEtc with
  | .error _ => .error (.callError "symlink repair failed")
  | .ok etc1 =>
    let s2 := { s1 with pubEtc := etc1 }
    if !del then
      let entry := data.ip ++ "/" ++ toString data.netmask ++ " " ++ data.interface
      .ok { s2 with pubLines := s2.pubLines ++ [entry] }
    else
      match removeFirstContaining data.ip s2.pubLines with
      | none => .error .stopIteration
      | some ls => .ok { s2 with pubLines := ls }

/-- `ctdb.private.ips.create`: validation, then `update_file`; a `False`
    result raises `CallError`. -/
def privateCreate (s : ClusterState) (ip : String) :
    Except PyErr (String × ClusterState) :=
  match privateCommonValidation s ip false with
  | .error e => .error e
  | .ok _ =>
    match privateUpdateFile s ip false with
    | .error e => .error e
    | .ok (true, s') => .ok (ip, s')
    | .ok (false, _) => .error (.callError "Failed updating PRI_IP_FILE")

/-- `ctdb.private.ips.delete`. -/
def privateDelete (s : ClusterState) (ip : String) :
    Except PyErr (String × ClusterState) :=
  match privateCommonValidation s ip true with
  | .error e => .error e
  | .ok _ =>
    match privateUpdateFile s ip true with
    | .error e => .error e
    | .ok (true, s') => .ok (ip, s')
    | .ok (false, _) => .error (.callError "Failed updating PRI_IP_FILE")

/-- `ctdb.public.ips.do_create`. -/
def publicDoCreate (s : ClusterState) (data : PubData) :
    Except PyErr (PubData × ClusterState) :=
  match publicCommonValidation s data false with
  | .error e => .error e
  | .ok _ =>
    match publicUpdateFile s data false with
    | .error e => .error e
    | .ok s' => .ok (data, s')

/-- `gluster volume status_detail` record for the ctdb shared volume:
    the fields `shared_volume_exists_and_started` inspects. -/
structure VolInfo where
  type : String
  replica : Nat
  num_bricks : Nat
  status : String
deriving DecidableEq, Repr

/-- A trusted-storage-pool peer as returned by `gluster.peer.pool`. -/
structure GPeer where
  hostname : String
  connected : String
deriving DecidableEq, Repr

/-- State visible to `ctdb.shared.volume`: the volume (if it exists), the
    peer pool, service run states, the local mount flag, and oracles for
    the outcome of the `mount`/`umount` subprocesses. -/
structure GlusterState where
  vol : Option VolInfo
  peers : List GPeer
  glusterdStarted : Bool
  eventsdStarted : Bool
  mounted : Bool
  mountCmdOk : Bool
  umountCmdOk : Bool
deriving DecidableEq, Repr

/-- `gluster volume start` on the ctdb shared volume. -/
def startVol (s : GlusterState) : GlusterState :=
  { s with vol := s.vol.map fun v => { v with status := "Started" } }

/-- `shared_volume_exists_and_started`: validates the topology of an
    existing volume (raising `CallError` on a conflict) and starts a
    stopped volume as a side effect, reporting it as started. -/
def shared_volume_exists_and_started (s : GlusterState) :
    Except PyErr (Bool × Bool × GlusterState) :=
  match s.vol with
  | none => .ok (false, false, s)
  | some v =>
    if v.type ≠ "REPLICATE" then
      .error (.callError "already exists but is not a REPLICATE type volume")
    else if v.replica < 3 || v.num_bricks < 3 then
      .error (.callError "already exists but is configured in a way that could cause split-brain")
    else if v.status ≠ "Started" then
      .ok (true, true, { s with vol := some { v with status := "Started" } })
    else .ok (true, true, s)

/-- `ctdb.shared.volume.mount`: no-op when glusterd is down or the volume
    does not exist / is not started; otherwise stop `glustereventsd`, run
    the mount command (outcome given by the `mountCmdOk` oracle) and
    restart `glustereventsd` regardless of outcome. -/
def sharedVolumeMount (s : GlusterState) :
    Except PyErr (Bool × GlusterState) :=
  if !s.glusterdStarted then .ok (false, s)
  else
    match shared_volume_exists_and_started s with
    | .error e => .error e
    | .ok (ex, st, s1) =>
      if !ex || !st then .ok (false, s1)
      else
        let s2 := { s1 with eventsdStarted := false }
        let r := if s2.mountCmdOk then (true, { s2 with mounted := true })
                 else (false, s2)
        .ok (r.1, { r.2 with eventsdStarted := true })

/-- `ctdb.shared.volume.umount`: same `glustereventsd` suppression around
    the umount command (outcome given by the `umountCmdOk` oracle). -/
def sharedVolumeUmount (s : GlusterState) : Bool × GlusterState :=
  let s1 := { s with eventsdStarted := false }
  let r := if s1.umountCmdOk then (true, { s1 with mounted := false })
           else (false, s1)
  (r.1, { r.2 with eventsdStarted := true })

/-- `ctdb.shared.volume.create`: probe (which validates topology and
    starts a stopped volume), create the volume from the connected peers
    when absent (requiring at least 3), start it when not yet started,
    then mount. -/
def sharedVolumeCreate (s : GlusterState) :
    Except PyErr (String × GlusterState) :=
  match shared_volume_exists_and_started s with
  | .error e => .error e
  | .ok (ex, st, s1) =>
    let next : Except PyErr GlusterState :=
      if ex then .ok s1
      else
        if s1.peers.isEmpty then .error (.callError "No peers detected")
        else
          let con := (s1.peers.filter (·.connected = "Connected")).map (·.hostname)
          if con.length < 3 then
            .error (.callError "3 peers must be present and connected")
          else
            .ok { s1 with vol := some { type := "REPLICATE", replica := con.length,
                                        num_bricks := con.length, status := "Created" } }
    match next with
    | .error e => .error e
    | .ok s2 =>
      let s3 := if !st then startVol s2 else s2
      match sharedVolumeMount s3 with
      | .error e => .error e
      | .ok (_, s4) => .ok ("SUCCESS", s4)

/-- `ctdb.shared.volume.delete`: probe (starting a stopped volume as a
    side effect), return early when absent, else umount, stop when the
    probe reported started, then delete the volume. -/
def sharedVolumeDelete (s : GlusterState) :
    Except PyErr (Option String × GlusterState) :=
  match shared_volume_exists_and_started s with
  | .error e => .error e
  | .ok (ex, st, s1) =>
    if !ex then .ok (none, s1)
    else
      let s2 := (sharedVolumeUmount s1).2
      let s3 := if st then
          { s2 with vol := s2.vol.map fun v => { v with status := "Stopped" } }
        else s2
      .ok (some "SUCCESS", { s3 with vol := none })

/-! ## Helper lemmas -/

theorem tombstone_append (ip : String) (pre post : List String) (h : ip ∉ pre) :
    tombstone ip (pre ++ ip :: post) = some (pre ++ ("#" ++ ip) :: post) := by
  induction pre with
  | nil => simp [tombstone]
  | cons a as ih =>
    have ha : a ≠ ip := fun hc => h (by simp [hc])
    have h' : ip ∉ as := fun hc => h (List.mem_cons_of_mem _ hc)
    simp [tombstone, ha, ih h']

theorem removeFirstContaining_append (ip : String) (pre post : List String)
    (l : String) (hpre : ∀ x ∈ pre, strContains x ip = false)
    (hl : strContains l ip = true) :
    removeFirstContaining ip (pre ++ l :: post) = some (pre ++ post) := by
  induction pre with
  | nil => simp [removeFirstContaining, hl]
  | cons a as ih =>
    have ha : strContains a ip = false := hpre a (by simp)
    have h' : ∀ x ∈ as, strContains x ip = false :=
      fun x hx => hpre x (List.mem_cons_of_mem _ hx)
    simp [removeFirstContaining, ha, ih h']

/-! ## Claim states -/

/-- Daemon down, shared volume mounted, glusterd up, both store files in
    place behind correct symlinks: one active public line, one active
    private line. -/
def c1state : ClusterState :=
  { ctdbStarted := false, glusterdStarted := true, mounted := true, healthy := false,
    priFileExists := true, priLines := ["10.0.0.9"],
    priEtc := .symlinkTo PRI_IP_FILE true,
    pubFileExists := true, pubLines := ["10.0.0.5/24 eth0"],
    pubEtc := .symlinkTo PUB_IP_FILE true,
    daemonNodes := [], daemonPubIps := [], nodeIps := [], nodeInts := ["eth0"] }

/-- Daemon down, mounted, glusterd up, both stores empty/absent. -/
def c2state : ClusterState :=
  { ctdbStarted := false, glusterdStarted := true, mounted := true, healthy := true,
    priFileExists := false, priLines := [], priEtc := .absent,
    pubFileExists := false, pubLines := [], pubEtc := .absent,
    daemonNodes := [], daemonPubIps := [], nodeIps := [], nodeInts := ["eth0"] }

/-- The local private indirection path is a regular file. -/
def c3state : ClusterState :=
  { c2state with priFileExists := true, priLines := [], priEtc := .regularFile }

/-- State after the first `update_file` call on `c3state`. -/
def c3state1 : ClusterState :=
  { c3state with priEtc := .absent, priLines := ["10.0.0.1"] }

/-- State after the second `update_file` call. -/
def c3state2 : ClusterState :=
  { c3state1 with priEtc := .symlinkTo PRI_IP_FILE true,
                  priLines := ["10.0.0.1", "10.0.0.2"] }

/-- Private store containing one active and one tombstoned line, readable
    in file mode. -/
def c4state : ClusterState :=
  { c2state with priFileExists := true, priLines := ["10.0.0.1", "#10.0.0.2"],
                 priEtc := .symlinkTo PRI_IP_FILE true }

def c5state : ClusterState := c2state

/-- State after `publicDoCreate c5state ⟨"10.0.0.5", 24, "eth0"⟩`. -/
def c5state1 : ClusterState :=
  { c5state with pubFileExists := true, pubLines := ["10.0.0.5/24 eth0"],
                 pubEtc := .symlinkTo PUB_IP_FILE true }

/-- State after `privateCreate c5state1 "10.0.0.9"`. -/
def c5state2 : ClusterState :=
  { c5state1 with priFileExists := true, priLines := ["10.0.0.9"],
                  priEtc := .symlinkTo PRI_IP_FILE true }

/-! ## Claims -/

/-- C1: the cross-class uniqueness check is broken in both directions.
    Creating the private address `10.0.0.9` while the private store holds
    `10.0.0.9` as an *active public* line `10.0.0.5/24 eth0` — here:
    creating the private address `10.0.0.5`, which is an existing active
    public address — succeeds instead of failing with `Conflict`, because
    the combined set mixes strings with dicts and a `str == dict`
    comparison is always `False`.  Conversely, creating the public address
    `10.0.0.9`, which is an existing private address, raises `TypeError`
    (subscripting a `str` with `'id'`) instead of failing with
    `Conflict`. -/
theorem c1_cross_class_uniqueness_broken :
    privateCreate c1state "10.0.0.5"
      = .ok ("10.0.0.5", { c1state with priLines := ["10.0.0.9", "10.0.0.5"] }) ∧
    publicDoCreate c1state ⟨"10.0.0.9", 24, "eth0"⟩ = .error .typeError := by
  exact ⟨rfl, rfl⟩

/-- C2: netmask boundary.  `netmask = 129` with an IPv6 ip fails and a
    negative netmask fails, as the claim says, but `netmask = 128` with an
    IPv6 ip *also* fails validation (the `elif netmask > 32` branch fires
    for IPv6 addresses as well), contradicting the claim that 128 passes
    the format validation. -/
theorem c2_netmask_boundary_eval :
    publicCommonValidation c2state ⟨"2001:db8::1", 129, "eth0"⟩ false
      = .error (.validation [.badNetmask 129]) ∧
    publicCommonValidation c2state ⟨"10.0.0.1", -1, "eth0"⟩ false
      = .error (.validation [.badNetmask (-1)]) ∧
    publicCommonValidation c2state ⟨"2001:db8::1", 128, "eth0"⟩ false
      = .error (.validation [.badNetmask 128]) := by
  exact ⟨rfl, rfl, rfl⟩

/-- C3: symlink repair is *not* completed in one call.  With the local
    path a regular file, a single `update_file` call deletes the file but
    leaves the path absent (no symlink is created, since `symlink_it` is
    only set on the not-exists branch); the symlink appears only on the
    second call. -/
theorem c3_symlink_repair_two_calls :
    privateUpdateFile c3state "10.0.0.1" false = .ok (true, c3state1) ∧
    c3state1.priEtc = .absent ∧
    privateUpdateFile c3state1 "10.0.0.2" false = .ok (true, c3state2) ∧
    c3state2.priEtc = .symlinkTo PRI_IP_FILE true := by
  exact ⟨rfl, rfl, rfl, rfl⟩

/-- C4 counterexample: with the store holding a tombstoned line, the
    file-mode private query returns the tombstoned line too, not only the
    active (non-`#`) lines. -/
theorem c4_query_returns_tombstoned_cex :
    privateQuery c4state = ["10.0.0.1", "#10.0.0.2"] ∧
    privateQuery c4state
      ≠ c4state.priLines.filter (fun l => !charsStartWith ['#'] l.toList) := by
  exact ⟨rfl, by decide⟩

/-- C4 (amended): in file mode (daemon down, volume mounted, file exists,
    symlink correct) the private query returns *all* lines of the store
    file, in file order, tombstoned lines included. -/
theorem c4_query_returns_all_lines (s : ClusterState)
    (h1 : s.ctdbStarted = false) (h2 : s.mounted = true)
    (h3 : s.priFileExists = true)
    (h4 : isLinkTo s.priEtc PRI_IP_FILE = true) :
    privateQuery s = s.priLines := by
  simp [privateQuery, h1, h2, h3, h4]

theorem c4_query_returns_all_lines_witness :
    privateQuery c4state = c4state.priLines :=
  c4_query_returns_all_lines c4state rfl rfl rfl rfl

/-- C5: round trip.  The private half holds: `create` then `query`
    includes the address and a second `create` fails with `Conflict`.  For
    public addresses `public_ip` and `netmask` round-trip and a second
    `create` conflicts, but the returned entry's `interfaces` field is the
    list of *characters* of the interface name (`list(i.split()[-1])`),
    not the interface `eth0` itself. -/
theorem c5_round_trip_eval :
    publicDoCreate c5state ⟨"10.0.0.5", 24, "eth0"⟩
      = .ok (⟨"10.0.0.5", 24, "eth0"⟩, c5state1) ∧
    publicQuery c5state1
      = .ok [⟨"10.0.0.5", "10.0.0.5", 24, ["e", "t", "h", "0"]⟩] ∧
    (["e", "t", "h", "0"] : List String) ≠ ["eth0"] ∧
    publicDoCreate c5state1 ⟨"10.0.0.5", 24, "eth0"⟩
      = .error (.validation [.conflict "10.0.0.5"]) ∧
    privateCreate c5state1 "10.0.0.9" = .ok ("10.0.0.9", c5state2) ∧
    privateQuery c5state2 = ["10.0.0.9"] ∧
    privateCreate c5state2 "10.0.0.9"
      = .error (.validation [.conflict "10.0.0.9"]) := by
  exact ⟨rfl, rfl, by decide, rfl, rfl, rfl, rfl⟩

/-- C6: private tombstoning preserves file order.  If the store contains
    an active line equal to `ip` (first such occurrence isolated as
    `pre ++ ip :: post` with `ip ∉ pre`), and the usual mutation
    preconditions hold (file exists, symlink correct, health gate passes),
    then `update_file` in delete mode rewrites the file with exactly that
    line replaced in place by `#ip` and every other line unchanged and in
    the same order. -/
theorem c6_tombstone_preserves_order (s : ClusterState) (ip : String)
    (pre post : List String)
    (hln : s.priLines = pre ++ ip :: post) (hpre : ip ∉ pre)
    (hex : s.priFileExists = true)
    (hlink : s.priEtc = EtcState.symlinkTo PRI_IP_FILE true)
    (hgate : s.ctdbStarted = false ∨ s.healthy = true) :
    privateUpdateFile s ip true
      = .ok (true, { s with priLines := pre ++ ("#" ++ ip) :: post }) := by
  obtain ⟨cS, gS, mo, he, pFE, pL, pE, uFE, uL, uE, dn, dp, ni, nint⟩ := s
  simp only at hln hex hlink hgate ⊢
  subst hln hex hlink
  have hgate' : (cS && !he) = false := by
    rcases hgate with h | h <;> simp [h]
  simp [privateUpdateFile, hgate', ensureSymlink, etcExists, EtcState.isSym,
    resolveTarget, tombstone_append ip pre post hpre]

/-- Private store holding the two active lines of the claim's example. -/
def c6state : ClusterState :=
  { c2state with priFileExists := true, priLines := ["10.0.0.1", "10.0.0.2"],
                 priEtc := .symlinkTo PRI_IP_FILE true }

theorem c6_tombstone_preserves_order_witness :
    privateUpdateFile c6state "10.0.0.1" true
      = .ok (true, { c6state with priLines := ["#10.0.0.1", "10.0.0.2"] }) := by
  simpa using c6_tombstone_preserves_order c6state "10.0.0.1" [] ["10.0.0.2"]
    rfl (by simp) rfl rfl (Or.inl rfl)

/-- Public store in which a line for another address (`10.0.0.50`)
    contains the requested ip `10.0.0.5` as a substring and comes first. -/
def c7state : ClusterState :=
  { c2state with pubFileExists := true,
                 pubLines := ["10.0.0.50/24 eth0", "10.0.0.5/24 eth1"],
                 pubEtc := .symlinkTo PUB_IP_FILE true }

/-- C7 counterexample: deleting `10.0.0.5` removes the line
    `10.0.0.50/24 eth0` — whose ip field is `10.0.0.50`, not `10.0.0.5` —
    because the match is substring containment (`data['ip'] in i`), not
    ip-field equality.  The claim's expected result would keep that line
    and drop `10.0.0.5/24 eth1`. -/
theorem c7_substring_match_cex :
    publicUpdateFile c7state ⟨"10.0.0.5", 0, ""⟩ true
      = .ok { c7state with pubLines := ["10.0.0.5/24 eth1"] } ∧
    publicUpdateFile c7state ⟨"10.0.0.5", 0, ""⟩ true
      ≠ .ok { c7state with pubLines := ["10.0.0.50/24 eth0"] } := by
  exact ⟨rfl, by decide⟩

/-- C7 (amended): public delete drops the *first line containing the
    requested ip as a substring* and keeps all remaining lines in their
    original order; this coincides with the claim whenever the only line
    containing the ip is the one whose ip field equals it. -/
theorem c7_removes_first_containing (s : ClusterState) (d : PubData)
    (pre post : List String) (l : String)
    (hln : s.pubLines = pre ++ l :: post)
    (hpre : ∀ x ∈ pre, strContains x d.ip = false)
    (hl : strContains l d.ip = true)
    (hex : s.pubFileExists = true)
    (hlink : s.pubEtc = EtcState.symlinkTo PUB_IP_FILE true) :
    publicUpdateFile s d true = .ok { s with pubLines := pre ++ post } := by
  obtain ⟨cS, gS, mo, he, pFE, pL, pE, uFE, uL, uE, dn, dp, ni, nint⟩ := s
  simp only at hln hex hlink ⊢
  subst hln hex hlink
  simp [publicUpdateFile, ensureSymlink, etcExists, EtcState.isSym,
    resolveTarget, removeFirstContaining_append d.ip pre post l hpre hl]

theorem c7_removes_first_containing_witness :
    publicUpdateFile
      { c2state with pubFileExists := true,
                     pubLines := ["10.0.0.5/24 eth0", "10.0.0.6/24 eth1"],
                     pubEtc := .symlinkTo PUB_IP_FILE true }
      ⟨"10.0.0.5", 0, ""⟩ true
      = .ok { c2state with pubFileExists := true,
                           pubLines := ["10.0.0.6/24 eth1"],
                           pubEtc := .symlinkTo PUB_IP_FILE true } := by
  simpa using c7_removes_first_containing
    { c2state with pubFileExists := true,
                   pubLines := ["10.0.0.5/24 eth0", "10.0.0.6/24 eth1"],
                   pubEtc := .symlinkTo PUB_IP_FILE true }
    ⟨"10.0.0.5", 0, ""⟩ [] ["10.0.0.6/24 eth1"] "10.0.0.5/24 eth0"
    rfl (by simp) (by decide) rfl rfl

/-- Private canonical file exists, the daemon is running and reports the
    cluster unhealthy; the public store is ready for mutation. -/
def c8state : ClusterState :=
  { c2state with ctdbStarted := true, healthy := false,
                 priFileExists := true,
                 pubFileExists := true, pubLines := ["10.0.0.5/24 eth0"],
                 pubEtc := .symlinkTo PUB_IP_FILE true }

/-- C8 counterexample: with the canonical private file existing, the
    daemon running and the cluster unhealthy, a *public* create still
    proceeds and mutates the file — `ctdb_public.update_file` contains no
    health check at all, contradicting the claim that every create/delete
    is gated on cluster health. -/
theorem c8_public_mutation_skips_health_gate :
    publicDoCreate c8state ⟨"10.0.0.7", 24, "eth0"⟩
      = .ok (⟨"10.0.0.7", 24, "eth0"⟩,
             { c8state with pubLines := ["10.0.0.5/24 eth0", "10.0.0.7/24 eth0"] }) := by
  exact rfl

/-- C8 (amended): the health gate exists only for *private* mutations.
    When the canonical private file exists and the daemon is running but
    unhealthy, private `update_file` fails (returns `False`, so the caller
    raises) and leaves the state untouched; when the daemon is running and
    healthy, or not running at all, the private mutation proceeds
    unconditionally. -/
theorem c8_private_health_gate :
    (∀ (s : ClusterState) (ip : String) (del : Bool),
        s.priFileExists = true → s.ctdbStarted = true → s.healthy = false →
        privateUpdateFile s ip del = .ok (false, s)) ∧
    (∀ (s : ClusterState) (ip : String),
        s.ctdbStarted = false → s.priFileExists = true →
        s.priEtc = EtcState.symlinkTo PRI_IP_FILE true →
        privateUpdateFile s ip false
          = .ok (true, { s with priLines := s.priLines ++ [ip] })) ∧
    (∀ (s : ClusterState) (ip : String),
        s.ctdbStarted = true → s.healthy = true → s.priFileExists = true →
        s.priEtc = EtcState.symlinkTo PRI_IP_FILE true →
        privateUpdateFile s ip false
          = .ok (true, { s with priLines := s.priLines ++ [ip] })) := by
  refine ⟨?_, ?_, ?_⟩
  · intro s ip del h1 h2 h3
    simp [privateUpdateFile, h1, h2, h3]
  · intro s ip h1 h2 h3
    obtain ⟨cS, gS, mo, he, pFE, pL, pE, uFE, uL, uE, dn, dp, ni, nint⟩ := s
    simp only at h1 h2 h3 ⊢
    subst h1 h2 h3
    simp [privateUpdateFile, ensureSymlink, etcExists, EtcState.isSym, resolveTarget]
  · intro s ip h1 h2 h3 h4
    obtain ⟨cS, gS, mo, he, pFE, pL, pE, uFE, uL, uE, dn, dp, ni, nint⟩ := s
    simp only at h1 h2 h3 h4 ⊢
    subst h1 h2 h3 h4
    simp [privateUpdateFile, ensureSymlink, etcExists, EtcState.isSym, resolveTarget]

theorem c8_private_health_gate_witness :
    privateUpdateFile c8state "10.0.0.8" false = .ok (false, c8state) ∧
    privateUpdateFile c6state "10.0.0.8" false
      = .ok (true, { c6state with priLines := ["10.0.0.1", "10.0.0.2", "10.0.0.8"] }) ∧
    privateUpdateFile { c6state with ctdbStarted := true, healthy := true } "10.0.0.8" false
      = .ok (true, { c6state with ctdbStarted := true, healthy := true,
                                  priLines := ["10.0.0.1", "10.0.0.2", "10.0.0.8"] }) := by
  refine ⟨c8_private_health_gate.1 c8state "10.0.0.8" false rfl rfl rfl, ?_, ?_⟩
  · simpa using c8_private_health_gate.2.1 c6state "10.0.0.8" rfl rfl rfl
  · simpa using c8_private_health_gate.2.2
      { c6state with ctdbStarted := true, healthy := true } "10.0.0.8" rfl rfl rfl rfl

/-- C9: volume create preconditions.  (a) With no volume and fewer than 3
    connected peers, create fails.  (b) With an existing volume of the
    expected name whose topology is not replicate-with-replica-and-bricks
    at-least-3, create fails with the configuration-conflict `CallError`.
    (c) With an existing valid-topology volume that is not started, the
    existence probe starts it. -/
theorem c9_create_preconditions :
    (∀ (s : GlusterState), s.vol = none →
        ((s.peers.filter (·.connected = "Connected")).map (·.hostname)).length < 3 →
        ∃ msg, sharedVolumeCreate s = .error (.callError msg)) ∧
    (∀ (s : GlusterState) (v : VolInfo), s.vol = some v →
        (v.type ≠ "REPLICATE" ∨ v.replica < 3 ∨ v.num_bricks < 3) →
        ∃ msg, sharedVolumeCreate s = .error (.callError msg)) ∧
    (∀ (s : GlusterState) (v : VolInfo), s.vol = some v →
        v.type = "REPLICATE" → 3 ≤ v.replica → 3 ≤ v.num_bricks →
        v.status ≠ "Started" →
        shared_volume_exists_and_started s
          = .ok (true, true, { s with vol := some { v with status := "Started" } })) := by
  refine ⟨?_, ?_, ?_⟩
  · intro s hv hlt
    by_cases hp : s.peers.isEmpty
    · exact ⟨"No peers detected",
        by simp [sharedVolumeCreate, shared_volume_exists_and_started, hv, hp]⟩
    · refine ⟨"3 peers must be present and connected", ?_⟩
      simp only [List.length_map] at hlt
      simp [sharedVolumeCreate, shared_volume_exists_and_started, hv, hp,
        List.length_map, hlt]
  · intro s v hv hbad
    by_cases ht : v.type = "REPLICATE"
    · refine ⟨"already exists but is configured in a way that could cause split-brain", ?_⟩
      have hrb : v.replica < 3 ∨ v.num_bricks < 3 := by
        rcases hbad with h | h | h
        · exact absurd ht h
        · exact Or.inl h
        · exact Or.inr h
      have : (v.replica < 3 || v.num_bricks < 3) = true := by
        rcases hrb with h | h <;> simp [h]
      simp [sharedVolumeCreate, shared_volume_exists_and_started, hv, ht, this]
    · exact ⟨"already exists but is not a REPLICATE type volume",
        by simp [sharedVolumeCreate, shared_volume_exists_and_started, hv, ht]⟩
  · intro s v hv ht hr hb hst
    have hr' : ¬(v.replica < 3) := by omega
    have hb' : ¬(v.num_bricks < 3) := by omega
    simp [shared_volume_exists_and_started, hv, ht, hr', hb', hst]

/-- A well-formed replicate volume that is currently stopped. -/
def c9vol : VolInfo :=
  { type := "REPLICATE", replica := 3, num_bricks := 3, status := "Stopped" }

def c9stateA : GlusterState :=
  { vol := none, peers := [⟨"nodeA", "Connected"⟩, ⟨"nodeB", "Disconnected"⟩],
    glusterdStarted := true, eventsdStarted := true, mounted := false,
    mountCmdOk := true, umountCmdOk := true }

def c9stateB : GlusterState :=
  { c9stateA with vol := some { c9vol with type := "DISTRIBUTE", status := "Started" } }

def c9stateC : GlusterState := { c9stateA with vol := some c9vol }

theorem c9_create_preconditions_witness :
    (∃ msg, sharedVolumeCreate c9stateA = .error (.callError msg)) ∧
    (∃ msg, sharedVolumeCreate c9stateB = .error (.callError msg)) ∧
    shared_volume_exists_and_started c9stateC
      = .ok (true, true, { c9stateC with vol := some { c9vol with status := "Started" } }) := by
  refine ⟨c9_create_preconditions.1 c9stateA rfl (by decide), ?_, ?_⟩
  · exact c9_create_preconditions.2.1 c9stateB
      { c9vol with type := "DISTRIBUTE", status := "Started" } rfl (Or.inl (by decide))
  · simpa using c9_create_preconditions.2.2 c9stateC c9vol rfl rfl
      (by decide) (by decide) (by decide)

/-- C10: the existence probe's side effect.  (a) On an existing, valid,
    stopped volume the probe starts it and reports it started.  (b) Hence
    `delete` on an existing stopped volume runs to completion — the probe
    starts it, then delete unmounts, stops and deletes it, leaving no
    volume and the mount point unmounted.  (c) `mount`'s call of the probe
    alone moves the volume from stopped to started, even when the mount
    command itself fails. -/
theorem c10_probe_starts_stopped_volume :
    (∀ (s : GlusterState) (v : VolInfo), s.vol = some v →
        v.type = "REPLICATE" → 3 ≤ v.replica → 3 ≤ v.num_bricks →
        v.status = "Stopped" →
        shared_volume_exists_and_started s
          = .ok (true, true, { s with vol := some { v with status := "Started" } })) ∧
    (∀ (s : GlusterState) (v : VolInfo), s.vol = some v →
        v.type = "REPLICATE" → 3 ≤ v.replica → 3 ≤ v.num_bricks →
        v.status = "Stopped" → s.umountCmdOk = true →
        sharedVolumeDelete s
          = .ok (some "SUCCESS",
                 { s with vol := none, mounted := false, eventsdStarted := true })) ∧
    (∀ (s : GlusterState) (v : VolInfo), s.vol = some v →
        v.type = "REPLICATE" → 3 ≤ v.replica → 3 ≤ v.num_bricks →
        v.status = "Stopped" →
        s.glusterdStarted = true → s.mountCmdOk = false →
        sharedVolumeMount s
          = .ok (false, { s with vol := some { v with status := "Started" },
                                 eventsdStarted := true })) := by
  have probe : ∀ (s : GlusterState) (v : VolInfo), s.vol = some v →
      v.type = "REPLICATE" → 3 ≤ v.replica → 3 ≤ v.num_bricks →
      v.status = "Stopped" →
      shared_volume_exists_and_started s
        = .ok (true, true, { s with vol := some { v with status := "Started" } }) := by
    intro s v hv ht hr hb hst
    have hr' : ¬(v.replica < 3) := by omega
    have hb' : ¬(v.num_bricks < 3) := by omega
    have hst' : v.status ≠ "Started" := by simp [hst]
    simp [shared_volume_exists_and_started, hv, ht, hr', hb', hst']
  refine ⟨probe, ?_, ?_⟩
  · intro s v hv ht hr hb hst hu
    obtain ⟨vol, peers, gS, eS, mo, mOk, uOk⟩ := s
    simp only at hv hu ⊢
    subst hv hu
    rw [sharedVolumeDelete, probe _ v rfl ht hr hb hst]
    simp [sharedVolumeUmount]
  · intro s v hv ht hr hb hst hg hm
    obtain ⟨vol, peers, gS, eS, mo, mOk, uOk⟩ := s
    simp only at hv hg hm ⊢
    subst hv hg hm
    rw [sharedVolumeMount]
    simp only [Bool.not_true, Bool.false_eq_true, if_false]
    rw [probe _ v rfl ht hr hb hst]
    simp

def c10state : GlusterState :=
  { vol := some c9vol, peers := [], glusterdStarted := true,
    eventsdStarted := true, mounted := true, mountCmdOk := false,
    umountCmdOk := true }

theorem c10_probe_starts_stopped_volume_witness :
    shared_volume_exists_and_started c10state
      = .ok (true, true, { c10state with vol := some { c9vol with status := "Started" } }) ∧
    sharedVolumeDelete c10state
      = .ok (some "SUCCESS",
             { c10state with vol := none, mounted := false, eventsdStarted := true }) ∧
    sharedVolumeMount c10state
      = .ok (false, { c10state with vol := some { c9vol with status := "Started" },
                                    eventsdStarted := true }) := by
  refine ⟨?_, ?_, ?_⟩
  · simpa using c10_probe_starts_stopped_volume.1 c10state c9vol rfl rfl
      (by decide) (by decide) rfl
  · simpa using c10_probe_starts_stopped_volume.2.1 c10state c9vol rfl rfl
      (by decide) (by decide) rfl rfl
  · simpa using c10_probe_starts_stopped_volume.2.2 c10state c9vol rfl rfl
      (by decide) (by decide) rfl rfl rfl

end Ctdb
